import Mathlib

/-!
Verification of the PiBox5 photo-booth core against its specification.

Shallow embedding of the relevant parts of the source:
  * `src/pibox5/upload/http_upload.py`  (upload queue with retry)
  * `src/pibox5/camera/base.py`, `dummy_camera.py`, `gphoto2_camera.py`
  * `src/pibox5/ui/main_window.py`, `ui/screens/countdown_screen.py`
  * `src/pibox5/config/settings.py`

External effects (HTTP responses, the gPhoto2 device library, the clock,
JPEG encoding, the filesystem) are modelled as explicit parameters or
small outcome types; everything the Python code itself computes is
translated directly.
-/

namespace PiBox5

/-! ## Upload data model (`http_upload.py`, lines 18-37) -/

/-- `UploadTask` dataclass (`http_upload.py` lines 18-25): image bytes,
filename, enqueue timestamp and the `retry_count` field (default 0).
Bytes are modelled as `List Nat`, the timestamp as its ISO string. -/
structure UploadTask where
  imageData : List Nat
  filename : String
  timestamp : String
  retryCount : Nat := 0
  deriving Repr, DecidableEq

/-- `UploadResult` dataclass (`http_upload.py` lines 28-37).
`response_data` (a parsed-JSON dictionary) is irrelevant to every claim
and is omitted. -/
structure UploadResult where
  success : Bool
  filename : String
  statusCode : Option Nat := none
  errorMessage : Option String := none
  uploadTimeMs : Nat := 0
  deriving Repr, DecidableEq

/-- Python's f-string rendering of an `Optional[str]`: `None` prints as
`"None"`, a string prints as itself (used for `{last_error}` in the
aggregated failure message, `http_upload.py` line 166). -/
def pyOptStr : Option String → String
  | none => "None"
  | some s => s

/-- The aggregated terminal-failure message built at `http_upload.py`
line 166: `f"Upload failed after {self.retry_count + 1} attempts: {last_error}"`. -/
def uploadFailureMessage (retryCount : Nat) (lastError : Option String) : String :=
  "Upload failed after " ++ toString (retryCount + 1) ++ " attempts: " ++ pyOptStr lastError

/-- The `for attempt in range(self.retry_count + 1)` loop of
`HttpUploader._upload_with_retry` (`http_upload.py` lines 145-167).

`ep k` is the `UploadResult` produced by the `k`-th call of `_do_upload`
(the endpoint's behaviour); an exception raised by `_do_upload` is the
same as a failed result whose `errorMessage` is the exception text, since
both routes only set `last_error` and continue.  `fuel` is the number of
loop iterations still permitted (`retry_count + 1 - attempt`), `attempt`
the next attempt index, `lastError` the running `last_error` variable.

Returns the `UploadResult`, the number of attempts performed, and the
task as the loop leaves it.  The loop body contains no assignment to any
field of `task`, so the task is threaded through unchanged.
The `time.sleep(self.retry_delay)` between attempts has no effect on any
returned value and is not modelled. -/
def uploadLoop (ep : Nat → UploadResult) (task : UploadTask) (retryCount : Nat) :
    Nat → Nat → Option String → UploadResult × Nat × UploadTask
  | 0, attempt, lastError =>
      ({ success := false, filename := task.filename,
         errorMessage := some (uploadFailureMessage retryCount lastError) },
       attempt, task)
  | fuel + 1, attempt, _lastError =>
      let result := ep attempt
      if result.success then (result, attempt + 1, task)
      else uploadLoop ep task retryCount fuel (attempt + 1) result.errorMessage

/-- `HttpUploader._upload_with_retry` (`http_upload.py` lines 135-167):
runs the loop with `retry_count + 1` permitted iterations, starting at
attempt 0 with `last_error = None`. -/
def uploadWithRetry (ep : Nat → UploadResult) (task : UploadTask)
    (retryCount : Nat) : UploadResult × Nat × UploadTask :=
  uploadLoop ep task retryCount (retryCount + 1) 0 none

/-- If every attempt fails, `uploadLoop` with `fuel + 1` permitted
iterations performs `fuel + 1` more attempts and returns the aggregated
failure whose `last_error` is the message of the final attempt. -/
theorem uploadLoop_all_fail (ep : Nat → UploadResult) (task : UploadTask)
    (retryCount : Nat) (hfail : ∀ k, (ep k).success = false) :
    ∀ fuel attempt lastError,
      uploadLoop ep task retryCount (fuel + 1) attempt lastError =
        ({ success := false, filename := task.filename,
           errorMessage := some (uploadFailureMessage retryCount
             (ep (attempt + fuel)).errorMessage) },
         attempt + fuel + 1, task) := by
  intro fuel
  induction fuel with
  | zero =>
      intro attempt lastError
      simp [uploadLoop, hfail attempt]
  | succ n ih =>
      intro attempt lastError
      rw [uploadLoop]
      simp only [hfail attempt, Bool.false_eq_true, if_false]
      rw [ih (attempt + 1) (ep attempt).errorMessage]
      have h1 : attempt + 1 + n = attempt + (n + 1) := by omega
      rw [h1]

/-- C1.  Upload retry bound (`http_upload.py` lines 135-167).
For every retry configuration with `retryCount = N`:
(a) against an endpoint whose every attempt fails, exactly `N + 1`
attempts are performed and the result is a failure whose error message
reports `N + 1` attempts;
(b) against an endpoint whose first attempt fails and whose second
attempt succeeds (a second attempt requires `1 ≤ N`), exactly 2 attempts
are performed and the result is the success of the second attempt. -/
theorem upload_retry_bound (ep : Nat → UploadResult) (task : UploadTask) (N : Nat) :
    ((∀ k, (ep k).success = false) →
      (uploadWithRetry ep task N).2.1 = N + 1 ∧
      (uploadWithRetry ep task N).1.success = false ∧
      (uploadWithRetry ep task N).1.errorMessage =
        some ("Upload failed after " ++ toString (N + 1) ++ " attempts: "
          ++ pyOptStr (ep N).errorMessage)) ∧
    ((ep 0).success = false → (ep 1).success = true → 1 ≤ N →
      (uploadWithRetry ep task N).2.1 = 2 ∧
      (uploadWithRetry ep task N).1 = ep 1) := by
  constructor
  · intro hfail
    have h := uploadLoop_all_fail ep task N hfail N 0 none
    unfold uploadWithRetry
    rw [h]
    refine ⟨by simp, rfl, ?_⟩
    have h0 : 0 + N = N := by omega
    rw [h0]
    rfl
  · intro h0 h1 hN
    unfold uploadWithRetry
    obtain ⟨m, hm⟩ : ∃ m, N = m + 1 := ⟨N - 1, by omega⟩
    subst hm
    simp [uploadLoop, h0, h1]

/-- Witness for C1: with `retryCount = 1`, an always-failing endpoint
performs 2 attempts and reports "after 2 attempts", while a
fail-once-then-succeed endpoint performs 2 attempts and succeeds. -/
def epAllFail : Nat → UploadResult :=
  fun _ => { success := false, filename := "photo.jpg", errorMessage := some "HTTP 500: boom" }

/-- Endpoint that fails on attempt 0 and succeeds from attempt 1 on. -/
def epFailOnce : Nat → UploadResult :=
  fun k => if k = 0 then
      { success := false, filename := "photo.jpg", errorMessage := some "Connection error: refused" }
    else { success := true, filename := "photo.jpg", statusCode := some 200 }

/-- A concrete upload task used by witnesses. -/
def sampleTask : UploadTask :=
  { imageData := [255, 216, 255], filename := "photo.jpg", timestamp := "2026-10-12T00:00:00" }

theorem upload_retry_bound_witness :
    (uploadWithRetry epAllFail sampleTask 1).2.1 = 2 ∧
    (uploadWithRetry epAllFail sampleTask 1).1.success = false ∧
    (uploadWithRetry epAllFail sampleTask 1).1.errorMessage =
      some ("Upload failed after " ++ toString 2 ++ " attempts: "
        ++ pyOptStr (epAllFail 1).errorMessage) ∧
    (uploadWithRetry epFailOnce sampleTask 1).2.1 = 2 ∧
    (uploadWithRetry epFailOnce sampleTask 1).1 = epFailOnce 1 := by
  have h₁ := (upload_retry_bound epAllFail sampleTask 1).1 (fun k => rfl)
  have h₂ := (upload_retry_bound epFailOnce sampleTask 1).2 rfl rfl (by decide)
  exact ⟨h₁.1, h₁.2.1, h₁.2.2, h₂.1, h₂.2⟩

/-- The retry loop never writes to the task: no statement of
`_upload_with_retry` (`http_upload.py` lines 135-167) assigns to any
field of `task`, in particular not to `task.retry_count`. -/
theorem uploadLoop_task_unchanged (ep : Nat → UploadResult) (task : UploadTask)
    (retryCount : Nat) :
    ∀ fuel attempt lastError,
      (uploadLoop ep task retryCount fuel attempt lastError).2.2 = task := by
  intro fuel
  induction fuel with
  | zero => intro _ _; rfl
  | succ n ih =>
      intro attempt lastError
      rw [uploadLoop]
      by_cases h : (ep attempt).success = true
      · simp [h]
      · simp only [h, if_false, Bool.not_eq_true] at *
        simp [h, ih]

/-- C7 counterexample.  With `retryCount = 1` and an always-failing
endpoint, the retry routine performs 2 attempts, yet the job's
`retry_count` (the spec's `attemptCount`) still equals its initial value
0 rather than 0 + 2: the field is never incremented. -/
theorem upload_attemptCount_counterexample :
    (uploadWithRetry epAllFail sampleTask 1).2.1 = 2 ∧
    (uploadWithRetry epAllFail sampleTask 1).2.2.retryCount = 0 ∧
    sampleTask.retryCount + (uploadWithRetry epAllFail sampleTask 1).2.1 = 2 ∧
    ((uploadWithRetry epAllFail sampleTask 1).2.2.retryCount ==
      sampleTask.retryCount + (uploadWithRetry epAllFail sampleTask 1).2.1) = false := by
  exact ⟨rfl, rfl, rfl, rfl⟩

/-- C7 amended.  The retry routine tracks the attempt number only in the
local loop variable `attempt`; the job record is returned exactly as it
was passed in, so after any number of attempts its `retry_count`
(`attemptCount`) equals its initial value. -/
theorem upload_attemptCount_unchanged (ep : Nat → UploadResult)
    (task : UploadTask) (retryCount : Nat) :
    (uploadWithRetry ep task retryCount).2.2 = task ∧
    (uploadWithRetry ep task retryCount).2.2.retryCount = task.retryCount := by
  have h := uploadLoop_task_unchanged ep task retryCount (retryCount + 1) 0 none
  exact ⟨h, by rw [uploadWithRetry, h]⟩

/-! ## Camera data model (`camera/base.py`, lines 14-32) -/

/-- `CameraConfig` dataclass (`base.py` lines 14-22): one adjustable
camera option. -/
structure CameraConfig where
  name : String
  label : String
  value : String
  choices : List String
  readonly : Bool := false
  deriving Repr, DecidableEq

/-- `CaptureResult` dataclass (`base.py` lines 25-32). -/
structure CaptureResult where
  success : Bool
  imageData : Option (List Nat) := none
  filePath : Option String := none
  errorMessage : Option String := none
  deriving Repr, DecidableEq

/-- C5's data-model invariant, decidably: on `success = true` the image
bytes are present and `errorMessage` absent; on `success = false` the
error message is present and the image bytes absent. -/
def exactlyOnePopulated (r : CaptureResult) : Bool :=
  if r.success then r.imageData.isSome && r.errorMessage.isNone
  else r.errorMessage.isSome && r.imageData.isNone

/-! ## Synthetic camera (`camera/dummy_camera.py`) -/

/-- The `_settings` dict built in `DummyCamera.__init__`
(`dummy_camera.py` lines 35-60), as an insertion-ordered association
list. -/
def dummyInitialSettings : List (String × CameraConfig) :=
  [("iso", { name := "iso", label := "ISO", value := "400",
             choices := ["auto", "100", "200", "400", "800", "1600"] }),
   ("aperture", { name := "aperture", label := "Blende", value := "5.6",
                  choices := ["auto", "2.8", "4.0", "5.6", "8.0", "11", "16"] }),
   ("shutterspeed", { name := "shutterspeed", label := "Verschlusszeit", value := "1/125",
                      choices := ["auto", "1/30", "1/60", "1/125", "1/250", "1/500"] }),
   ("imageformat", { name := "imageformat", label := "Bildqualität", value := "Large Fine JPEG",
                     choices := ["Large Fine JPEG", "Large Normal JPEG", "RAW"] })]

/-- `self._settings.get(name)` — dictionary lookup. -/
def lookupConfig (settings : List (String × CameraConfig)) (name : String) :
    Option CameraConfig :=
  settings.lookup name

/-- `self._settings[name] = cfg` — dictionary update at an existing key
(insertion order is preserved, as in a Python dict). -/
def updateConfig (settings : List (String × CameraConfig)) (name : String)
    (cfg : CameraConfig) : List (String × CameraConfig) :=
  settings.map (fun p => if p.1 = name then (name, cfg) else p)

/-- `DummyCamera.set_config` (`dummy_camera.py` lines 227-244): if the
name is a key of `_settings` and the value is in that option's
`choices`, replace the option with one carrying the new value (same
name, label, choices and readonly flag) and return True; otherwise
return False and leave `_settings` untouched.  Note the routine never
consults `config.readonly`. -/
def dummySetConfig (settings : List (String × CameraConfig))
    (name value : String) : Bool × List (String × CameraConfig) :=
  match lookupConfig settings name with
  | some config =>
      if value ∈ config.choices then
        (true, updateConfig settings name
          { name := config.name, label := config.label, value := value,
            choices := config.choices, readonly := config.readonly })
      else (false, settings)
  | none => (false, settings)

/-- `DummyCamera` state: the fields set in `__init__` (`dummy_camera.py`
lines 27-60) plus the `_connected`/`_preview_active` flags from
`CameraBase.__init__` (`base.py` lines 43-45).  The wall-clock value of
`time.time()` is a `Nat` parameter where it is read. -/
structure DummyState where
  connected : Bool
  previewActive : Bool
  width : Nat
  height : Nat
  frameCount : Nat
  startTime : Nat
  settings : List (String × CameraConfig)
  deriving Repr, DecidableEq

/-- `DummyCamera.connect` (`dummy_camera.py` lines 62-69): always sets
`_connected = True`, resets `_start_time` to the current time, and
returns True (it does not check whether it is already connected; the
0.5 s simulated delay has no state effect). -/
def dummyConnect (s : DummyState) (now : Nat) : Bool × DummyState :=
  (true, { s with connected := true, startTime := now })

/-- `DummyCamera.disconnect` (`dummy_camera.py` lines 71-75). -/
def dummyDisconnect (s : DummyState) : DummyState :=
  { s with connected := false, previewActive := false }

/-- `DummyCamera.capture_photo` (`dummy_camera.py` lines 133-221): when
not connected, a failure with `error_message = "Camera not connected"`;
otherwise a success carrying the JPEG bytes produced by the PIL
rendering-and-encoding block (lines 148-214), modelled by the `jpeg`
parameter. -/
def dummyCapturePhoto (connected : Bool) (jpeg : List Nat) : CaptureResult :=
  if !connected then
    { success := false, errorMessage := some "Camera not connected" }
  else
    { success := true, imageData := some jpeg }

/-! ## Hardware-backed camera (`camera/gphoto2_camera.py`) -/

/-- `GPhoto2Camera.CONFIG_MAPPING` (`gphoto2_camera.py` lines 34-42). -/
def CONFIG_MAPPING : List (String × String) :=
  [("iso", "/main/imgsettings/iso"),
   ("aperture", "/main/capturesettings/aperture"),
   ("shutterspeed", "/main/capturesettings/shutterspeed"),
   ("imageformat", "/main/imgsettings/imageformat"),
   ("imageformatsd", "/main/imgsettings/imageformatsd"),
   ("whitebalance", "/main/imgsettings/whitebalance"),
   ("focusmode", "/main/capturesettings/focusmode")]

/-- The widget name passed to `get_child_by_name` in
`GPhoto2Camera.set_config` (`gphoto2_camera.py` lines 311-317):
`CONFIG_MAPPING.get(name)` with fallback `name`, then
`config_path.split("/")[-1]`. -/
def configLeaf (name : String) : String :=
  let path := (CONFIG_MAPPING.lookup name).getD name
  String.mk ((path.toList.reverse.takeWhile (fun c => c ≠ '/')).reverse)

/-- One gPhoto2 widget as the device library exposes it: name, current
value, choices, and the read-only flag returned by `get_readonly()`. -/
structure GpWidget where
  name : String
  value : String
  choices : List String
  readonly : Bool
  deriving Repr, DecidableEq

/-- Outcome of the external `widget.set_value` + `camera.set_config`
calls: either both succeed or some gPhoto2 call raises `GPhoto2Error`. -/
inductive GpSetOutcome where
  | ok
  | gpError (msg : String)
  deriving Repr, DecidableEq

/-- `GPhoto2Camera.set_config` (`gphoto2_camera.py` lines 300-333).
`widgets` is the device's configuration tree (flattened to the widgets
reachable by `get_child_by_name`); a failed lookup raises
`GPhoto2Error`, caught at line 331.  Returns the boolean result and
whether the value write (`widget.set_value` / `camera.set_config`) was
ever reached.  Note the routine checks `get_readonly()` but never checks
the value against the widget's choices. -/
def gphoto2SetConfig (connected cameraOpen : Bool) (widgets : List GpWidget)
    (setOutcome : GpSetOutcome) (name value : String) : Bool × Bool :=
  if !(connected && cameraOpen) then (false, false)
  else
    match widgets.find? (fun w => w.name == configLeaf name) with
    | none => (false, false)
    | some w =>
        if w.readonly then (false, false)
        else
          match setOutcome with
          | .ok => (true, true)
          | .gpError _ => (false, true)

/-- Outcome of the external capture-and-download sequence in
`GPhoto2Camera.capture_photo` (`gphoto2_camera.py` lines 220-233):
either the downloaded image bytes, or a `GPhoto2Error` message. -/
inductive GpCaptureOutcome where
  | ok (data : List Nat)
  | gpError (msg : String)
  deriving Repr, DecidableEq

/-- `GPhoto2Camera.capture_photo` (`gphoto2_camera.py` lines 200-257):
when not connected (or `_camera is None`), a failure with
"Camera not connected"; on a backend error, a failure with
`"Capture failed: " + str(e)`; otherwise a success with the downloaded
bytes.  The best-effort `_trigger_autofocus` call and the optional
`file_delete` cannot change the result and are not modelled. -/
def gphoto2CapturePhoto (connected cameraOpen : Bool)
    (outcome : GpCaptureOutcome) : CaptureResult :=
  if !(connected && cameraOpen) then
    { success := false, errorMessage := some "Camera not connected" }
  else
    match outcome with
    | .ok data => { success := true, imageData := some data }
    | .gpError msg => { success := false, errorMessage := some ("Capture failed: " ++ msg) }

/-- `GPhoto2Camera` state: `_connected`/`_preview_active` from the base
class plus `_camera`, `_context` (modelled by whether they are not
`None`), `_model` and `_serial` (`gphoto2_camera.py` lines 44-56). -/
structure GpState where
  connected : Bool
  previewActive : Bool
  cameraOpen : Bool
  contextOpen : Bool
  model : String
  serial : String
  deriving Repr, DecidableEq

/-- Outcome of the external device-initialisation sequence in
`GPhoto2Camera.connect` (`gphoto2_camera.py` lines 65-84): on success the
probed model name and serial (already `"N/A"` when the inner serial
lookup raised); otherwise the `GPhoto2Error` raised by `camera.init()`
(or the abilities probe). -/
inductive GpConnectOutcome where
  | ok (model serial : String)
  | gpError (msg : String)
  deriving Repr, DecidableEq

/-- `GPhoto2Camera.connect` (`gphoto2_camera.py` lines 58-92): always
re-runs the full initialisation — it does not check `_connected`.  A new
`Context` and `Camera` are assigned before `init()` can raise, so both
are open in either outcome; on error `_connected` is set to False and
False is returned. -/
def gphoto2Connect (s : GpState) (outcome : GpConnectOutcome) : Bool × GpState :=
  match outcome with
  | .ok m ser =>
      (true, { s with contextOpen := true, cameraOpen := true,
                      model := m, serial := ser, connected := true })
  | .gpError _ =>
      (false, { s with contextOpen := true, cameraOpen := true, connected := false })

/-- `GPhoto2Camera.disconnect` (`gphoto2_camera.py` lines 94-106):
`camera.exit()` (errors ignored), then `_camera = None`,
`_context = None`, `_connected = False`, `_preview_active = False`. -/
def gphoto2Disconnect (s : GpState) : GpState :=
  { s with cameraOpen := false, contextOpen := false,
           connected := false, previewActive := false }

/-! ## Theorems about the camera layer (claims C2, C5, C8) -/

/-- The dummy camera's option table with the `iso` option marked
read-only (as a hardware-style option table would be); used to show that
`DummyCamera.set_config` never consults the flag. -/
def roIsoSettings : List (String × CameraConfig) :=
  updateConfig dummyInitialSettings "iso"
    { name := "iso", label := "ISO", value := "400",
      choices := ["auto", "100", "200", "400", "800", "1600"], readonly := true }

/-- C2 counterexample.  On an option table whose `iso` option is marked
read-only, `DummyCamera.set_config "iso" "200"` returns True and changes
the option's current value: the routine (`dummy_camera.py` lines
227-244) checks only that the name is known and the value is among the
choices, never the `readonly` flag, so "setConfig returns false when the
named option is read-only" fails on the synthetic camera. -/
theorem setConfig_readonly_counterexample :
    (lookupConfig roIsoSettings "iso").map (fun c => c.readonly) = some true ∧
    ("200" ∈ ((lookupConfig roIsoSettings "iso").map (fun c => c.choices)).getD []) ∧
    (dummySetConfig roIsoSettings "iso" "200").1 = true ∧
    (lookupConfig (dummySetConfig roIsoSettings "iso" "200").2 "iso").map
      (fun c => c.value) = some "200" := by
  refine ⟨rfl, ?_, rfl, rfl⟩
  decide

/-- C2 amended.  `setConfig` leaves every option unchanged whenever it
returns false; the synthetic camera returns false exactly for unknown
names or values outside `allowedValues` (it does not consult the
read-only flag, though none of its constructed options is read-only);
the hardware-backed camera returns false for read-only options without
ever reaching the device write (it, in turn, performs no `allowedValues`
check of its own). -/
theorem setConfig_validation (settings : List (String × CameraConfig))
    (name value : String) :
    (lookupConfig settings name = none →
      dummySetConfig settings name value = (false, settings)) ∧
    (∀ cfg, lookupConfig settings name = some cfg → value ∉ cfg.choices →
      dummySetConfig settings name value = (false, settings)) ∧
    ((dummySetConfig settings name value).1 = false →
      (dummySetConfig settings name value).2 = settings) ∧
    (∀ (connected cameraOpen : Bool) (widgets : List GpWidget)
        (out : GpSetOutcome) (w : GpWidget),
      widgets.find? (fun x => x.name == configLeaf name) = some w →
      w.readonly = true →
      gphoto2SetConfig connected cameraOpen widgets out name value = (false, false)) := by
  refine ⟨?_, ?_, ?_, ?_⟩
  · intro h
    simp [dummySetConfig, h]
  · intro cfg hcfg hv
    simp [dummySetConfig, hcfg, hv]
  · unfold dummySetConfig
    cases h : lookupConfig settings name with
    | none => simp
    | some cfg =>
        by_cases hv : value ∈ cfg.choices <;> simp [hv]
  · intro connected cameraOpen widgets out w hw hro
    unfold gphoto2SetConfig
    cases hc : connected && cameraOpen with
    | false => simp
    | true => simp [hw, hro]

/-- Witness for C2's amended theorem: on the dummy camera's initial
option table, an unknown name and the spec's `("iso", "999")` scenario
both return false and leave the table unchanged; on a hardware widget
tree whose `iso` widget is read-only, `set_config` returns false with no
device write. -/
theorem setConfig_validation_witness :
    dummySetConfig dummyInitialSettings "zoom" "5" = (false, dummyInitialSettings) ∧
    dummySetConfig dummyInitialSettings "iso" "999" = (false, dummyInitialSettings) ∧
    gphoto2SetConfig true true
      [{ name := "iso", value := "400", choices := ["auto", "100"], readonly := true }]
      .ok "iso" "100" = (false, false) := by
  refine ⟨?_, ?_, ?_⟩
  · exact (setConfig_validation dummyInitialSettings "zoom" "5").1 (by decide)
  · exact (setConfig_validation dummyInitialSettings "iso" "999").2.1
      { name := "iso", label := "ISO", value := "400",
        choices := ["auto", "100", "200", "400", "800", "1600"] }
      (by decide) (by decide)
  · exact (setConfig_validation [] "iso" "100").2.2.2 true true
      [{ name := "iso", value := "400", choices := ["auto", "100"], readonly := true }]
      .ok { name := "iso", value := "400", choices := ["auto", "100"], readonly := true }
      (by decide) rfl

/-- C5.  Every `CaptureResult` returned by `capture_photo` — synthetic
(`dummy_camera.py` lines 133-221) or hardware-backed
(`gphoto2_camera.py` lines 200-257) — populates exactly one of
`image_data` and `error_message`, and a capture while not connected is a
failure with `error_message` set. -/
theorem capturePhoto_exactly_one (connected cameraOpen : Bool)
    (jpeg : List Nat) (outcome : GpCaptureOutcome) :
    exactlyOnePopulated (dummyCapturePhoto connected jpeg) = true ∧
    exactlyOnePopulated (gphoto2CapturePhoto connected cameraOpen outcome) = true ∧
    (connected = false →
      (dummyCapturePhoto connected jpeg).success = false ∧
      (dummyCapturePhoto connected jpeg).errorMessage.isSome = true ∧
      (gphoto2CapturePhoto connected cameraOpen outcome).success = false ∧
      (gphoto2CapturePhoto connected cameraOpen outcome).errorMessage.isSome = true) := by
  cases connected <;> cases cameraOpen <;> cases outcome <;>
    simp [dummyCapturePhoto, gphoto2CapturePhoto, exactlyOnePopulated]

/-- Witness for C5 at a disconnected camera with a concrete JPEG and a
concrete backend outcome. -/
theorem capturePhoto_exactly_one_witness :
    exactlyOnePopulated (dummyCapturePhoto false [255, 216]) = true ∧
    (dummyCapturePhoto false [255, 216]).success = false ∧
    (dummyCapturePhoto false [255, 216]).errorMessage.isSome = true ∧
    (gphoto2CapturePhoto false true (.ok [1])).success = false := by
  have h := capturePhoto_exactly_one false true [255, 216] (.ok [1])
  exact ⟨h.1, (h.2.2 rfl).1, (h.2.2 rfl).2.1, (h.2.2 rfl).2.2.1⟩

/-- A connected hardware-camera state, for the C8 counterexample. -/
def gpConnectedState : GpState :=
  { connected := true, previewActive := false, cameraOpen := true,
    contextOpen := true, model := "Canon EOS 2000D", serial := "123" }

/-- C8 counterexample.  `GPhoto2Camera.connect` called on an
already-connected camera re-runs the whole device initialisation
(`gphoto2_camera.py` lines 58-92, no `_connected` check); if that
re-initialisation raises (for example because the device is busy), the
call returns False and leaves `_connected = False` — not the True
required by "calling connect when already connected returns true". -/
theorem connect_idempotent_counterexample :
    gpConnectedState.connected = true ∧
    (gphoto2Connect gpConnectedState (.gpError "could not claim the USB device")).1 = false ∧
    (gphoto2Connect gpConnectedState (.gpError "could not claim the USB device")).2.connected = false := by
  exact ⟨rfl, rfl, rfl⟩

/-- C8 amended.  The synthetic camera's `connect` always returns true
and, when already connected, changes nothing but the preview clock
`_start_time`; `disconnect` is idempotent on both cameras (so calling it
when already disconnected changes nothing); the hardware camera's
`connect` returns true when the device initialisation succeeds, but
re-runs that initialisation even when already connected and returns
false (forcing `_connected = False`) when it fails. -/
theorem connect_disconnect_amended (s : DummyState) (g : GpState) (now : Nat)
    (m ser msg : String) :
    (dummyConnect s now).1 = true ∧
    (s.connected = true → (dummyConnect s now).2 = { s with startTime := now }) ∧
    dummyDisconnect (dummyDisconnect s) = dummyDisconnect s ∧
    gphoto2Disconnect (gphoto2Disconnect g) = gphoto2Disconnect g ∧
    (gphoto2Connect g (.ok m ser)).1 = true ∧
    (g.connected = true →
      (gphoto2Connect g (.gpError msg)).1 = false ∧
      (gphoto2Connect g (.gpError msg)).2.connected = false) := by
  refine ⟨rfl, ?_, rfl, rfl, rfl, fun _ => ⟨rfl, rfl⟩⟩
  intro h
  cases s
  simp only [dummyConnect]
  simp_all

/-- Witness for C8's amended theorem at concrete connected states. -/
theorem connect_disconnect_amended_witness :
    (dummyConnect { connected := true, previewActive := false, width := 800,
                    height := 480, frameCount := 7, startTime := 100,
                    settings := dummyInitialSettings } 250).2 =
      { connected := true, previewActive := false, width := 800,
        height := 480, frameCount := 7, startTime := 250,
        settings := dummyInitialSettings } ∧
    (gphoto2Connect gpConnectedState (.gpError "busy")).1 = false := by
  have h := connect_disconnect_amended
    { connected := true, previewActive := false, width := 800, height := 480,
      frameCount := 7, startTime := 100, settings := dummyInitialSettings }
    gpConnectedState 250 "m" "s" "busy"
  exact ⟨h.2.1 rfl, (h.2.2.2.2.2 rfl).1⟩

/-! ## Session configuration (`config/settings.py`) -/

/-- `TimingSettings` (`settings.py` lines 30-36), the fields the core
consumes. -/
structure TimingSettingsT where
  countdownSeconds : Int := 3
  reviewSeconds : Int := 5
  deriving Repr, DecidableEq

/-- `CameraSettings` (`settings.py` lines 39-49), the fields the core
consumes. -/
structure CameraSettingsT where
  useDummy : Bool := false
  previewFps : Nat := 10
  deriving Repr, DecidableEq

/-- `UploadSettings` (`settings.py` lines 52-61). -/
structure UploadSettingsT where
  enabled : Bool := false
  url : String := ""
  apiKey : String := ""
  uploadOnCapture : Bool := true
  retryCount : Nat := 3
  timeoutSeconds : Nat := 30
  deriving Repr, DecidableEq

/-- `StorageSettings` (`settings.py` lines 64-70). -/
structure StorageSettingsT where
  saveLocally : Bool := true
  photosDir : String := "/root/Pictures/PiBox5"
  filenamePattern : String := "photo_\x7btimestamp\x7d.jpg"
  deriving Repr, DecidableEq

/-- `Settings` container (`settings.py` lines 73-81), restricted to the
sub-structures the orchestration core reads. -/
structure SettingsT where
  timing : TimingSettingsT := {}
  camera : CameraSettingsT := {}
  upload : UploadSettingsT := {}
  storage : StorageSettingsT := {}
  deriving Repr, DecidableEq

/-- Zero-pad a decimal rendering to `w` digits, as `strftime` does. -/
def padZero (w : Nat) (n : Nat) : String :=
  let s := toString n
  String.mk (List.replicate (w - s.length) '0') ++ s

/-- `datetime.now().strftime("%Y%m%d_%H%M%S")` (`main_window.py` lines
241 and 259) applied to a clock reading. -/
def formatTimestamp (year month day hour minute second : Nat) : String :=
  padZero 4 year ++ padZero 2 month ++ padZero 2 day ++ "_" ++
    padZero 2 hour ++ padZero 2 minute ++ padZero 2 second

/-! ## Preview loop (`main_window.py`, `CameraThread`, lines 31-56) -/

/-- A running `CameraThread` (`main_window.py` lines 31-56): the mutable
`fps` attribute together with the `interval_ms` local that `run`
computes once, before entering the `while` loop (line 45:
`interval_ms = 1000 // self.fps`). -/
structure CameraThreadRun where
  fps : Nat
  intervalMs : Nat
  running : Bool
  deriving Repr, DecidableEq

/-- Entering `CameraThread.run` (`main_window.py` lines 42-51):
`_running = True` and `interval_ms = 1000 // self.fps`. -/
def cameraThreadRunStart (fps : Nat) : CameraThreadRun :=
  { fps := fps, intervalMs := 1000 / fps, running := true }

/-- The assignment `self.camera_thread.fps = self.settings.camera.preview_fps`
in `MainWindow._on_settings_saved` (`main_window.py` lines 287-289). -/
def cameraThreadSetFps (t : CameraThreadRun) (newFps : Nat) : CameraThreadRun :=
  { t with fps := newFps }

/-- The delay the loop body sleeps on its next cycle
(`main_window.py` line 51: `self.msleep(interval_ms)`): the cached
local, not a function of the current `fps` attribute. -/
def cameraThreadNextDelay (t : CameraThreadRun) : Nat :=
  t.intervalMs

/-! ## Upload worker ownership (`main_window.py`, `_setup_uploader`) -/

/-- The state of one `HttpUploader` as `__init__` builds it
(`http_upload.py` lines 51-92): configuration, FIFO queue, statistics
counters and the running flag. -/
structure HttpUploaderState where
  url : String
  apiKey : String
  timeout : Nat
  retryCount : Nat
  queue : List UploadTask
  totalUploads : Nat
  successfulUploads : Nat
  failedUploads : Nat
  running : Bool
  deriving Repr, DecidableEq

/-- `HttpUploader.__init__` (`http_upload.py` lines 51-92): empty queue,
zeroed statistics, worker started. -/
def mkHttpUploader (url apiKey : String) (timeout retryCount : Nat) :
    HttpUploaderState :=
  { url := url, apiKey := apiKey, timeout := timeout, retryCount := retryCount,
    queue := [], totalUploads := 0, successfulUploads := 0,
    failedUploads := 0, running := true }

/-- `HttpUploader.upload_async` (`http_upload.py` lines 257-274):
increment `_total_uploads` and append a task built from the bytes, the
filename and `datetime.now()` to the FIFO queue. -/
def uploadAsync (u : HttpUploaderState) (imageData : List Nat)
    (filename ts : String) : HttpUploaderState :=
  { u with totalUploads := u.totalUploads + 1,
           queue := u.queue ++ [{ imageData := imageData, filename := filename,
                                  timestamp := ts }] }

/-- The process-wide set of uploader workers: `MainWindow.uploader`
(the instance the window currently holds) plus every replaced instance.
`_setup_uploader` overwrites `self.uploader` without calling
`shutdown`, so a replaced uploader's daemon worker thread and queue
stay live; they are modelled as `detached`. -/
structure UploaderPool where
  current : Option HttpUploaderState
  detached : List HttpUploaderState
  deriving Repr, DecidableEq

/-- `MainWindow._setup_uploader` (`main_window.py` lines 175-186): if
uploads are enabled and a URL is configured, replace `self.uploader`
with a fresh `HttpUploader` built from the current settings; otherwise
set it to `None`.  The previously held instance (if any) is not shut
down — it moves to the detached set. -/
def setupUploader (u : UploadSettingsT) (pool : UploaderPool) : UploaderPool :=
  let detached := match pool.current with
    | some up => up :: pool.detached
    | none => pool.detached
  if u.enabled && u.url != "" then
    { current := some (mkHttpUploader u.url u.apiKey u.timeoutSeconds u.retryCount),
      detached := detached }
  else
    { current := none, detached := detached }

/-- Every upload job currently sitting in some worker's queue. -/
def queuedJobs (pool : UploaderPool) : List UploadTask :=
  (match pool.current with
    | some up => up.queue
    | none => []) ++ (pool.detached.map (fun up => up.queue)).flatten

/-! ## Countdown screen (`ui/screens/countdown_screen.py`) -/

/-- The state of a `CountdownScreen` that the countdown logic touches
(`countdown_screen.py` lines 40-41 and 132-170): the `_countdown_value`
counter (a Python int), whether `_timer` is running, the label texts and
visibility, and whether the delayed `_finish_countdown` (which emits
`countdown_finished`, triggering the capture) has been scheduled. -/
structure CountdownState where
  value : Int
  timerActive : Bool
  display : String
  hintText : String
  labelsVisible : Bool
  captureScheduled : Bool
  deriving Repr, DecidableEq

/-- `CountdownScreen.start_countdown` (`countdown_screen.py` lines
132-143): `_countdown_value = settings.timing.countdown_seconds`, show
the number, show the labels, start the 1-second timer. -/
def startCountdown (s : CountdownState) (countdownSeconds : Int) : CountdownState :=
  { s with value := countdownSeconds, display := toString countdownSeconds,
           labelsVisible := true, timerActive := true }

/-- `CountdownScreen._tick` (`countdown_screen.py` lines 151-170):
decrement `_countdown_value`; at `<= 0` stop the timer, show the camera
glyph and schedule `_finish_countdown` (which fires
`countdown_finished` after 300 ms); otherwise display the new value,
switching the hint to "Lächeln!" at 1. -/
def countdownTick (s : CountdownState) : CountdownState :=
  let v := s.value - 1
  if v ≤ 0 then
    { s with value := v, timerActive := false, display := "📸",
             captureScheduled := true }
  else
    let s' := { s with value := v, display := toString v }
    if v = 1 then { s' with hintText := "Lächeln!" } else s'

/-! ## Booth state machine (`main_window.py`, `MainWindow`) -/

/-- Screen indices (`main_window.py` lines 67-70). -/
def SCREEN_IDLE : Nat := 0

/-- `SCREEN_COUNTDOWN = 1` (`main_window.py` line 68). -/
def SCREEN_COUNTDOWN : Nat := 1

/-- `SCREEN_REVIEW = 2` (`main_window.py` line 69). -/
def SCREEN_REVIEW : Nat := 2

/-- `SCREEN_SETTINGS = 3` (`main_window.py` line 70). -/
def SCREEN_SETTINGS : Nat := 3

/-- Python truthiness of an `Optional[bytes]` (the `result.image_data`
test at `main_window.py` line 215): `None` and `b""` are falsy. -/
def pyTruthyBytes : Option (List Nat) → Bool
  | none => false
  | some l => !l.isEmpty

/-- The parts of `MainWindow` state that `_on_countdown_finished`
touches: the visible screen, `last_photo_data`, the review screen's
photo and timer, the local photo files (as a path ↦ bytes map), and the
uploader. -/
structure BoothState where
  screen : Nat
  lastPhotoData : Option (List Nat)
  reviewPhoto : Option (List Nat)
  reviewTimerOn : Bool
  files : List (String × List Nat)
  uploader : Option HttpUploaderState
  deriving Repr, DecidableEq

/-- Writing `data` to `filepath` with `open(filepath, "wb")`
(`main_window.py` lines 247-248): create or truncate, then write. -/
def fsWrite (files : List (String × List Nat)) (filepath : String)
    (data : List Nat) : List (String × List Nat) :=
  (filepath, data) :: files.filter (fun p => p.1 ≠ filepath)

/-- Reading a file back. -/
def fsRead (files : List (String × List Nat)) (filepath : String) :
    Option (List Nat) :=
  files.lookup filepath

/-- The file path `MainWindow._save_photo_locally` writes to
(`main_window.py` lines 238-245): `ensure_photos_dir` returns
`Path(settings.storage.photos_dir)` (`settings.py` lines 154-166,
creating it on demand), joined with the filename pattern in which every
`"\x7btimestamp\x7d"` is replaced by the `%Y%m%d_%H%M%S` timestamp. -/
def savePath (storage : StorageSettingsT) (ts : String) : String :=
  storage.photosDir ++ "/" ++
    storage.filenamePattern.replace "\x7btimestamp\x7d" ts

/-- `MainWindow._save_photo_locally` (`main_window.py` lines 235-253)
on the success path (I/O errors, which the `except` clause only logs,
are outside the filesystem model). -/
def savePhotoLocally (files : List (String × List Nat))
    (storage : StorageSettingsT) (ts : String) (imageData : List Nat) :
    List (String × List Nat) :=
  fsWrite files (savePath storage ts) imageData

/-- `MainWindow._upload_photo` (`main_window.py` lines 255-263): build
`"photo_" + timestamp + ".jpg"` and queue the bytes on the current
uploader, if any. -/
def uploadPhoto (uploader : Option HttpUploaderState) (imageData : List Nat)
    (ts : String) : Option HttpUploaderState :=
  match uploader with
  | some u => some (uploadAsync u imageData ("photo_" ++ ts ++ ".jpg") ts)
  | none => none

/-- `MainWindow._on_countdown_finished` (`main_window.py` lines
208-233).  `hasCamera` is the `if self.camera:` guard; `result` is what
`capture_photo()` returned; `ts` is the `%Y%m%d_%H%M%S` rendering of
`datetime.now()`.  On `result.success and result.image_data`: record
the bytes, save locally when enabled, show the review screen and start
its timer, and enqueue an upload when `upload_on_capture` is set and an
uploader exists.  Otherwise return to the idle screen. -/
def onCountdownFinished (settings : SettingsT) (st : BoothState)
    (hasCamera : Bool) (result : CaptureResult) (ts : String) : BoothState :=
  if !hasCamera then st
  else if result.success && pyTruthyBytes result.imageData then
    let data := result.imageData.getD []
    let st1 := { st with lastPhotoData := some data }
    let st2 := if settings.storage.saveLocally then
        { st1 with files := savePhotoLocally st1.files settings.storage ts data }
      else st1
    let st3 := { st2 with reviewPhoto := some data, screen := SCREEN_REVIEW,
                          reviewTimerOn := true }
    if settings.upload.uploadOnCapture && st3.uploader.isSome then
      { st3 with uploader := uploadPhoto st3.uploader data ts }
    else st3
  else
    { st with screen := SCREEN_IDLE }

/-! ## Theorems about the orchestration layer (claims C3, C4, C6, C9, C10) -/

/-- C3.  `CameraThread.run` caches `interval_ms = 1000 // self.fps`
before entering its loop (`main_window.py` line 45), so the assignment
`self.camera_thread.fps = ...` made by `_on_settings_saved` (line 289)
can never change the delay of any later cycle: started at 10 fps and
re-targeted to 20 fps, the next cycle still sleeps 100 ms instead of
the 50 ms the new rate demands — the new rate takes effect only after a
thread restart, contradicting "the new rate governs the delay of the
very next cycle". -/
theorem previewRate_change_needs_restart :
    (∀ (t : CameraThreadRun) (newFps : Nat),
      cameraThreadNextDelay (cameraThreadSetFps t newFps) = cameraThreadNextDelay t) ∧
    (cameraThreadSetFps (cameraThreadRunStart 10) 20).fps = 20 ∧
    cameraThreadNextDelay (cameraThreadSetFps (cameraThreadRunStart 10) 20) = 100 ∧
    1000 / (cameraThreadSetFps (cameraThreadRunStart 10) 20).fps = 50 ∧
    (cameraThreadNextDelay (cameraThreadSetFps (cameraThreadRunStart 10) 20) ==
      1000 / (cameraThreadSetFps (cameraThreadRunStart 10) 20).fps) = false := by
  exact ⟨fun t f => rfl, rfl, rfl, rfl, rfl⟩

/-- C4.  `_setup_uploader` (`main_window.py` lines 175-186), as invoked
by `_on_settings_saved` (line 298): the multiset (in fact the list) of
jobs queued across all live workers is unchanged — the replaced
uploader is never shut down, so its queue and worker survive, and the
fresh uploader starts with an empty queue — while the new current
uploader carries exactly the endpoint, API key, timeout and retry count
of the new settings (or is absent when uploads are disabled or no URL
is configured). -/
theorem settingsSaved_uploader_rebuild (u : UploadSettingsT) (pool : UploaderPool) :
    queuedJobs (setupUploader u pool) = queuedJobs pool ∧
    (u.enabled = true → u.url ≠ "" →
      (setupUploader u pool).current =
        some (mkHttpUploader u.url u.apiKey u.timeoutSeconds u.retryCount)) ∧
    (u.enabled = false ∨ u.url = "" → (setupUploader u pool).current = none) := by
  refine ⟨?_, ?_, ?_⟩
  · unfold setupUploader queuedJobs
    cases hc : pool.current with
    | none => by_cases h : u.enabled && u.url != "" <;> simp [h, mkHttpUploader]
    | some up => by_cases h : u.enabled && u.url != "" <;> simp [h, mkHttpUploader]
  · intro he hu
    unfold setupUploader
    have h : (u.enabled && u.url != "") = true := by
      simp [he, hu]
    simp [h]
  · intro h
    unfold setupUploader
    have h' : (u.enabled && u.url != "") = false := by
      rcases h with h | h <;> simp [h]
    simp [h']

/-- Witness for C4: a pool holding an uploader with two queued jobs,
reconfigured to a new endpoint — both jobs still queued, new parameters
in place. -/
def oldUploader : HttpUploaderState :=
  mkHttpUploader "http://old/api" "k1" 30 3

/-- The old uploader with two jobs queued. -/
def busyPool : UploaderPool :=
  { current := some { oldUploader with
      queue := [sampleTask, { sampleTask with filename := "photo2.jpg" }] },
    detached := [] }

/-- New upload settings applied by the settings-saved event. -/
def newUploadSettings : UploadSettingsT :=
  { enabled := true, url := "http://new/api", apiKey := "k2",
    retryCount := 5, timeoutSeconds := 10 }

theorem settingsSaved_uploader_rebuild_witness :
    queuedJobs (setupUploader newUploadSettings busyPool) =
      [sampleTask, { sampleTask with filename := "photo2.jpg" }] ∧
    (setupUploader newUploadSettings busyPool).current =
      some (mkHttpUploader "http://new/api" "k2" 10 5) := by
  have h := settingsSaved_uploader_rebuild newUploadSettings busyPool
  exact ⟨by rw [h.1]; rfl, h.2.1 rfl (by decide)⟩

/-- On the success path (`result.success` true and non-empty bytes),
`_on_countdown_finished` shows the review screen holding the capture's
bytes and starts the review timer, whatever the save/upload settings. -/
theorem onCountdownFinished_success_fields (settings : SettingsT)
    (st : BoothState) (result : CaptureResult) (ts : String) (data : List Nat)
    (hrs : result.success = true) (hrd : result.imageData = some data)
    (hne : data.isEmpty = false) :
    (onCountdownFinished settings st true result ts).screen = SCREEN_REVIEW ∧
    (onCountdownFinished settings st true result ts).reviewPhoto = some data ∧
    (onCountdownFinished settings st true result ts).reviewTimerOn = true ∧
    (onCountdownFinished settings st true result ts).lastPhotoData = some data := by
  unfold onCountdownFinished
  simp only [hrs, hrd, pyTruthyBytes, hne, Bool.not_false, Bool.true_and,
    Bool.not_true, Bool.false_eq_true, if_false, Option.getD_some]
  by_cases hsl : settings.storage.saveLocally = true <;>
    by_cases hup : (settings.upload.uploadOnCapture && st.uploader.isSome) = true <;>
    simp [hsl, hup]

/-- On the failure branch of `_on_countdown_finished` the only change
is the return to the idle screen. -/
theorem onCountdownFinished_failure (settings : SettingsT) (st : BoothState)
    (result : CaptureResult) (ts : String) (hrs : result.success = false) :
    onCountdownFinished settings st true result ts =
      { st with screen := SCREEN_IDLE } := by
  unfold onCountdownFinished
  simp [hrs]

/-- When local saving is enabled and the capture succeeded with
non-empty bytes, the files after `_on_countdown_finished` are exactly
the old files with the photo written. -/
theorem onCountdownFinished_files_saved (settings : SettingsT)
    (st : BoothState) (result : CaptureResult) (ts : String) (data : List Nat)
    (hsl : settings.storage.saveLocally = true)
    (hrs : result.success = true) (hrd : result.imageData = some data)
    (hne : data.isEmpty = false) :
    (onCountdownFinished settings st true result ts).files =
      savePhotoLocally st.files settings.storage ts data := by
  unfold onCountdownFinished
  simp only [hrs, hrd, pyTruthyBytes, hne, Bool.not_false, Bool.true_and,
    Bool.not_true, Bool.false_eq_true, if_false, Option.getD_some, hsl, if_true]
  by_cases hup : (settings.upload.uploadOnCapture && st.uploader.isSome) = true <;>
    simp [hup]

/-- C6.  With `countdown_seconds = 3`, `start_countdown` sets the
counter to 3 and each of the next three `_tick`s decrements it
(3→2→1→0); the third tick stops the timer and schedules the capture
(`countdown_finished` → `_on_countdown_finished`).  A successful
synthetic capture then moves the booth to the review screen holding the
capture's bytes; a failed capture moves it to the idle screen with no
review shown. -/
theorem countdown_scenario (settings : SettingsT) (cs : CountdownState)
    (st : BoothState) (jpeg : List Nat) (ts : String) (rfail : CaptureResult)
    (hcd : settings.timing.countdownSeconds = 3)
    (hcs : cs.captureScheduled = false)
    (hj : jpeg ≠ [])
    (hrf : rfail.success = false) :
    (startCountdown cs settings.timing.countdownSeconds).value = 3 ∧
    (countdownTick (startCountdown cs settings.timing.countdownSeconds)).value = 2 ∧
    (countdownTick (countdownTick
      (startCountdown cs settings.timing.countdownSeconds))).value = 1 ∧
    (countdownTick (countdownTick (countdownTick
      (startCountdown cs settings.timing.countdownSeconds)))).value = 0 ∧
    (countdownTick (countdownTick
      (startCountdown cs settings.timing.countdownSeconds))).captureScheduled = false ∧
    (countdownTick (countdownTick (countdownTick
      (startCountdown cs settings.timing.countdownSeconds)))).timerActive = false ∧
    (countdownTick (countdownTick (countdownTick
      (startCountdown cs settings.timing.countdownSeconds)))).captureScheduled = true ∧
    (onCountdownFinished settings st true (dummyCapturePhoto true jpeg) ts).screen
      = SCREEN_REVIEW ∧
    (onCountdownFinished settings st true (dummyCapturePhoto true jpeg) ts).reviewPhoto
      = some jpeg ∧
    (onCountdownFinished settings st true (dummyCapturePhoto true jpeg) ts).reviewTimerOn
      = true ∧
    (onCountdownFinished settings st true rfail ts).screen = SCREEN_IDLE ∧
    (onCountdownFinished settings st true rfail ts).reviewPhoto = st.reviewPhoto := by
  rw [hcd]
  have hje : jpeg.isEmpty = false := by
    cases jpeg with
    | nil => exact absurd rfl hj
    | cons a l => rfl
  have hcap := onCountdownFinished_success_fields settings st
    (dummyCapturePhoto true jpeg) ts jpeg (by rfl) (by rfl) hje
  have hfail := onCountdownFinished_failure settings st rfail ts hrf
  refine ⟨rfl, ?_, ?_, ?_, ?_, ?_, ?_, hcap.1, hcap.2.1, hcap.2.2.1,
    by rw [hfail], by rw [hfail]⟩ <;>
    norm_num [startCountdown, countdownTick, hcs]

/-- Witness for C6 at the default settings (3-second countdown), a
fresh countdown screen, a concrete booth state, a 3-byte JPEG and the
synthetic camera's not-connected failure. -/
def freshCountdown : CountdownState :=
  { value := 0, timerActive := false, display := "", hintText := "Bereit machen!",
    labelsVisible := false, captureScheduled := false }

/-- A concrete booth state sitting on the countdown screen. -/
def sampleBooth : BoothState :=
  { screen := SCREEN_COUNTDOWN, lastPhotoData := none, reviewPhoto := none,
    reviewTimerOn := false, files := [], uploader := none }

theorem countdown_scenario_witness :
    (countdownTick (countdownTick (countdownTick
      (startCountdown freshCountdown (3 : Int))))).captureScheduled = true ∧
    (onCountdownFinished {} sampleBooth true
      (dummyCapturePhoto true [9, 9, 9]) "20261012_101500").screen = SCREEN_REVIEW ∧
    (onCountdownFinished {} sampleBooth true
      (dummyCapturePhoto false [9, 9, 9]) "20261012_101500").screen = SCREEN_IDLE := by
  have h := countdown_scenario {} freshCountdown sampleBooth [9, 9, 9]
    "20261012_101500" (dummyCapturePhoto false [9, 9, 9])
    rfl rfl (by decide) rfl
  exact ⟨h.2.2.2.2.2.2.1, h.2.2.2.2.2.2.2.1, h.2.2.2.2.2.2.2.2.2.2.1⟩

/-- Reading back the file just written returns exactly the written
bytes. -/
theorem fsRead_fsWrite (files : List (String × List Nat)) (p : String)
    (data : List Nat) : fsRead (fsWrite files p data) p = some data := by
  simp [fsRead, fsWrite, List.lookup]

/-- C9.  When local saving is enabled and the capture succeeded with
non-empty bytes, `_on_countdown_finished` writes those bytes at the
path built from the configured directory and the filename pattern with
`\x7btimestamp\x7d` replaced by the `YYYYMMDD_HHMMSS` rendering of the
clock, and reading the file back returns exactly the captured bytes. -/
theorem localSave_roundtrip (settings : SettingsT) (st : BoothState)
    (result : CaptureResult) (data : List Nat)
    (year month day hour minute second : Nat)
    (hsl : settings.storage.saveLocally = true)
    (hrs : result.success = true)
    (hrd : result.imageData = some data)
    (hne : data ≠ []) :
    fsRead (onCountdownFinished settings st true result
        (formatTimestamp year month day hour minute second)).files
        (savePath settings.storage
          (formatTimestamp year month day hour minute second)) = some data ∧
    savePath settings.storage (formatTimestamp year month day hour minute second) =
      settings.storage.photosDir ++ "/" ++
        settings.storage.filenamePattern.replace "\x7btimestamp\x7d"
          (padZero 4 year ++ padZero 2 month ++ padZero 2 day ++ "_" ++
            padZero 2 hour ++ padZero 2 minute ++ padZero 2 second) := by
  have hde : data.isEmpty = false := by
    cases data with
    | nil => exact absurd rfl hne
    | cons a l => rfl
  refine ⟨?_, rfl⟩
  rw [onCountdownFinished_files_saved settings st result _ data hsl hrs hrd hde]
  exact fsRead_fsWrite _ _ _

/-- Witness for C9: default storage settings, a concrete timestamp and
3 bytes of image data; the computed path and round-tripped bytes. -/
theorem localSave_roundtrip_witness :
    fsRead (onCountdownFinished {} sampleBooth true
        { success := true, imageData := some [9, 9, 9] }
        (formatTimestamp 2026 10 12 10 15 0)).files
      (savePath ({} : SettingsT).storage (formatTimestamp 2026 10 12 10 15 0)) =
      some [9, 9, 9] := by
  exact (localSave_roundtrip {} sampleBooth
    { success := true, imageData := some [9, 9, 9] } [9, 9, 9]
    2026 10 12 10 15 0 rfl rfl rfl (by decide)).1

/-- C10.  A `CaptureResult` with `success = True` but empty or absent
bytes fails the `result.success and result.image_data` test
(`main_window.py` line 215; `b""` and `None` are both falsy), so the
booth takes the failure branch: it returns to the idle screen and
nothing else changes — no review photo, no local file, no upload, no
`last_photo_data`. -/
theorem emptyCapture_is_failure (settings : SettingsT) (st : BoothState)
    (result : CaptureResult) (ts : String)
    (hrs : result.success = true)
    (hrd : result.imageData = some [] ∨ result.imageData = none) :
    onCountdownFinished settings st true result ts = { st with screen := SCREEN_IDLE } := by
  have ht : pyTruthyBytes result.imageData = false := by
    rcases hrd with h | h <;> simp [h, pyTruthyBytes]
  unfold onCountdownFinished
  simp [hrs, ht]

/-- Witness for C10 at a concrete state and the `success = True`,
`image_data = b""` capture result. -/
theorem emptyCapture_is_failure_witness :
    onCountdownFinished {} sampleBooth true
        { success := true, imageData := some [] } "20261012_101500" =
      { sampleBooth with screen := SCREEN_IDLE } := by
  exact emptyCapture_is_failure {} sampleBooth
    { success := true, imageData := some [] } "20261012_101500" rfl (Or.inl rfl)

end PiBox5
